import Mathlib

/-!
Shallow embedding of `src/dashboard.py`, a Streamlit dashboard implementing
linked brushing across four scatter charts plus a correlation heatmap.

The script runs top-to-bottom on every Streamlit rerun.  One rerun is one
recompute cycle: read session state, filter the base table by the sidebar
widgets (`filtered_df`, `year_df`), apply the stored brush (`apply_brush`),
render the four charts from `brushed_df`, call `update_brush` for each of the
four chart keys in order, and compute the correlation matrix from
`brushed_df`'s numeric columns.  Session state (`selected_indices` and the
per-chart plotly selection payloads) persists between reruns.

Rows of the pandas DataFrame are modelled as `Row` records; a DataFrame is a
`List Row` in row order.  `df.iloc[list]` raises `IndexError` on an
out-of-range position, so positional selection is modelled in `Option`
(`none` = the script aborts with an exception).
-/

namespace VDS

/-- One row of the base dataset: categorical `country_x`, integer `year`,
and a numeric indicator field standing in for the numeric columns. -/
structure Row where
  country : String
  year : Int
  life_expect : Int
deriving DecidableEq

instance : Inhabited Row := ⟨⟨"", 0, 0⟩⟩

/-- `startsWithChars h n` is true when `n` is an initial segment of `h`
(character-level helper for Python's substring test). -/
def startsWithChars : List Char → List Char → Bool
  | _, [] => true
  | [], _ :: _ => false
  | a :: as, b :: bs => a == b && startsWithChars as bs

/-- `containsSub h n` is true when `n` occurs contiguously inside `h`
(character-level helper for Python's substring test). -/
def containsSub : List Char → List Char → Bool
  | [], n => n.isEmpty
  | a :: t, n => startsWithChars (a :: t) n || containsSub t n

/-- Python's `needle in hay` substring test on strings. -/
def strContains (hay needle : String) : Bool :=
  containsSub hay.toList needle.toList

/-- `filtered_df = df[df['country_x'].isin(selected_countries)]`
(dashboard.py line 59). -/
def filtered_df (df : List Row) (selected_countries : List String) : List Row :=
  df.filter (fun r => selected_countries.contains r.country)

/-- `year_df = filtered_df[filtered_df['year'] == selected_year]`
(dashboard.py line 60).  This is the current DatasetView. -/
def year_df (df : List Row) (selected_countries : List String)
    (selected_year : Int) : List Row :=
  (filtered_df df selected_countries).filter (fun r => r.year == selected_year)

/-- `df.iloc[idxs]` for a list of positional indices: the rows at those
positions, in the order given, with repetition; `none` models the
`IndexError` pandas raises when any position is out of range. -/
def ilocList (input_df : List Row) (idxs : List Nat) : Option (List Row) :=
  idxs.mapM (fun i => input_df.get? i)

/-- `apply_brush` (dashboard.py lines 63–67): with no stored selection the
input frame is returned unchanged; otherwise the stored positional indices
are resolved with `.iloc` against whatever frame is passed in. -/
def apply_brush (selected_indices : Option (List Nat)) (input_df : List Row) :
    Option (List Row) :=
  match selected_indices with
  | none => some input_df
  | some idxs => ilocList input_df idxs

/-- `update_brush(fig_key)` (dashboard.py lines 14–22): read the plotly
selection payload stored in session state under the chart's key; if its
point list is non-empty, overwrite `selected_indices` with the events'
`point_index` values, otherwise leave `selected_indices` alone. -/
def update_brush (points : List Nat) (selected_indices : Option (List Nat)) :
    Option (List Nat) :=
  if points = [] then selected_indices else some points

/-- `undernourish_cols = [c for c in df.columns if "prev_unde" in c]`
(dashboard.py line 140). -/
def undernourish_cols (cols : List String) : List String :=
  cols.filter (fun c => strContains c "prev_unde")

/-- `y_col_3 = undernourish_cols[0] if undernourish_cols else "life_expect"`
(dashboard.py line 141). -/
def y_col_3 (cols : List String) : String :=
  (undernourish_cols cols).headD "life_expect"

/-- `neonatal_cols = [c for c in df.columns if "neonatal_mortality" in c]`
(dashboard.py line 169). -/
def neonatal_cols (cols : List String) : List String :=
  cols.filter (fun c => strContains c "neonatal_mortality")

/-- `y_col_4 = neonatal_cols[0] if neonatal_cols else "infant_mortality"`
(dashboard.py line 170). -/
def y_col_4 (cols : List String) : String :=
  (neonatal_cols cols).headD "infant_mortality"

/-- `numeric_df = brushed_df.select_dtypes(include=['float64','int64'])`
(dashboard.py line 200): the numeric columns of each row.  The statistics
themselves are an external collaborator; the engine only decides which rows
feed them. -/
def numeric_df (brushed_df : List Row) : List (Int × Int) :=
  brushed_df.map (fun r => (r.year, r.life_expect))

/-- Output of the summary view: either a correlation matrix computed from
the given numeric rows, or the "need more data" signal the spec describes. -/
inductive SummaryOutput where
  | corrMatrix (numeric : List (Int × Int)) : SummaryOutput
  | needMoreData : SummaryOutput
deriving DecidableEq

/-- The per-session Streamlit state that survives between reruns:
`st.session_state.selected_indices` plus the persisted plotly selection
payload (its `point_index` list) for each of the four chart keys. -/
structure SessionState where
  selected_indices : Option (List Nat)
  fig1_event : List Nat
  fig2_event : List Nat
  fig3_event : List Nat
  fig4_event : List Nat
deriving DecidableEq

/-- Session state at the start of a session (dashboard.py lines 10–11):
no selection stored, no chart events yet. -/
def initialState : SessionState :=
  { selected_indices := none, fig1_event := [], fig2_event := [],
    fig3_event := [], fig4_event := [] }

/-- The four `update_brush` calls of one rerun, in script order
(dashboard.py lines 103, 129, 161, 190): each chart's stored event is
applied to `selected_indices` in turn. -/
def process_events (s : SessionState) : Option (List Nat) :=
  update_brush s.fig4_event
    (update_brush s.fig3_event
      (update_brush s.fig2_event
        (update_brush s.fig1_event s.selected_indices)))

/-- What one rerun hands to the views: the data each of the four scatter
charts is rendered from, and the summary view's output. -/
structure Outputs where
  fig1_data : List Row
  fig2_data : List Row
  fig3_data : List Row
  fig4_data : List Row
  summary : SummaryOutput
deriving DecidableEq

/-- One full Streamlit rerun of the script, given the base table, the two
sidebar widget values and the incoming session state.  `brushed_df` is
computed once (line 69) from the selection stored *before* this rerun and
feeds all four charts and the correlation heatmap; the four `update_brush`
calls then rewrite `selected_indices` for the next rerun.  `none` models the
script aborting with an uncaught `IndexError` from `.iloc`. -/
def rerun (df : List Row) (selected_countries : List String)
    (selected_year : Int) (s : SessionState) :
    Option (SessionState × Outputs) :=
  match apply_brush s.selected_indices (year_df df selected_countries selected_year) with
  | none => none
  | some brushed_df =>
      some ({ s with selected_indices := process_events s },
        { fig1_data := brushed_df, fig2_data := brushed_df,
          fig3_data := brushed_df, fig4_data := brushed_df,
          summary := SummaryOutput.corrMatrix (numeric_df brushed_df) })

/-- One of the four plotly chart keys. -/
inductive ChartKey where
  | fig1 | fig2 | fig3 | fig4
deriving DecidableEq

/-- Store a fresh plotly selection payload under the given chart key
(what Streamlit does to `st.session_state[fig_key]` before the
`on_select="rerun"` rerun starts). -/
def setEvent (k : ChartKey) (points : List Nat) (s : SessionState) : SessionState :=
  match k with
  | ChartKey.fig1 => { s with fig1_event := points }
  | ChartKey.fig2 => { s with fig2_event := points }
  | ChartKey.fig3 => { s with fig3_event := points }
  | ChartKey.fig4 => { s with fig4_event := points }

/-- A whole interactive session: current sidebar widget values plus the
persistent session state. -/
structure Session where
  countries : List String
  year : Int
  state : SessionState
deriving DecidableEq

/-- An external trigger, each of which causes exactly one rerun: a lasso /
click selection on one of the charts, a sidebar widget change, or the
Clear Selection button (dashboard.py lines 208–210, which reset
`selected_indices` to `None` and rerun). -/
inductive Trigger where
  | select (k : ChartKey) (points : List Nat) : Trigger
  | setCountries (cs : List String) : Trigger
  | setYear (y : Int) : Trigger
  | clearSelection : Trigger
deriving DecidableEq

/-- Process one external trigger: update widgets / stored events / clear the
selection as the trigger dictates, then run one full rerun of the script.
`none` models the rerun crashing. -/
def step (df : List Row) (sess : Session) (t : Trigger) :
    Option (Session × Outputs) :=
  match t with
  | Trigger.select k points =>
      (rerun df sess.countries sess.year (setEvent k points sess.state)).map
        (fun p => ({ sess with state := p.1 }, p.2))
  | Trigger.setCountries cs =>
      (rerun df cs sess.year sess.state).map
        (fun p => ({ countries := cs, year := sess.year, state := p.1 }, p.2))
  | Trigger.setYear y =>
      (rerun df sess.countries y sess.state).map
        (fun p => ({ countries := sess.countries, year := y, state := p.1 }, p.2))
  | Trigger.clearSelection =>
      (rerun df sess.countries sess.year
          { sess.state with selected_indices := none }).map
        (fun p => ({ sess with state := p.1 }, p.2))

/-! ## Concrete rows and tables used by witnesses and counterexamples -/

/-- A concrete record: country A, year 2020. -/
def rowA1 : Row := { country := "A", year := 2020, life_expect := 70 }

/-- A second concrete record: country A, year 2020. -/
def rowA2 : Row := { country := "A", year := 2020, life_expect := 75 }

/-! ## Theorems for the claims -/

/-- C7.  Replace, not union: whenever `update_brush` processes a non-empty
point list while some prior selection is stored, the resulting stored
selection is exactly the new point list — it fully replaces the old
selection and is never a union of old and new. -/
theorem update_brush_replaces (S old : List Nat) (h : S ≠ []) :
    update_brush S (some old) = some S := by
  simp [update_brush, h]

/-- Witness for C7: from prior selection `[1, 3]`, receiving `[2]` yields
exactly `[2]`. -/
theorem update_brush_replaces_witness :
    update_brush [2] (some [1, 3]) = some [2] :=
  update_brush_replaces [2] [1, 3] (by decide)

/-- C8.  Empty-event no-op: an event carrying zero points leaves the stored
brush selection exactly as it was; in particular it does not act as a Clear
and does not reset the selection. -/
theorem update_brush_empty_noop (sel : Option (List Nat)) :
    update_brush [] sel = sel := by
  simp [update_brush]

/-- Positional lookup: when every index in `L` is within range of `v`,
`.iloc[L]` succeeds and returns the rows of `v` at the positions of `L`,
in the order of `L`, one row per occurrence. -/
theorem ilocList_eq_map (v : List Row) (L : List Nat)
    (h : ∀ i ∈ L, i < v.length) :
    ilocList v L = some (L.map (fun i => v.getD i default)) := by
  induction L with
  | nil => rfl
  | cons i L ih =>
      have hi : i < v.length := h i (List.mem_cons_self i L)
      have hL : ∀ j ∈ L, j < v.length := fun j hj => h j (List.mem_cons_of_mem i hj)
      simp only [ilocList, List.mapM_cons] at *
      rw [List.get?_eq_get hi]
      simp only [Option.bind_eq_bind, Option.some_bind, ih hL, Option.some_bind,
        List.map_cons]
      rw [List.getD_eq_getElem v default hi]
      rfl

/-- C10.  Brushed-output order and multiplicity: with a stored index list `L`
all of whose entries are in range of the view `v`, `apply_brush` returns
exactly the rows of `v` at the positions in `L`, in the order of `L`, one
output row per occurrence of an index (duplicates included); and with no
stored selection (`None`) it returns `v` unchanged. -/
theorem apply_brush_positions (v : List Row) (L : List Nat)
    (h : ∀ i ∈ L, i < v.length) :
    apply_brush (some L) v = some (L.map (fun i => v.getD i default))
      ∧ apply_brush none v = some v :=
  ⟨ilocList_eq_map v L h, rfl⟩

/-- Witness for C10: on the two-row view `[rowA1, rowA2]`, the stored list
`[1, 0, 1]` yields `[rowA2, rowA1, rowA2]` — order follows the stored list
and the duplicated index yields a duplicated row — and `None` returns the
view unchanged. -/
theorem apply_brush_positions_witness :
    apply_brush (some [1, 0, 1]) [rowA1, rowA2] = some [rowA2, rowA1, rowA2]
      ∧ apply_brush none [rowA1, rowA2] = some [rowA1, rowA2] := by
  have h := apply_brush_positions [rowA1, rowA2] [1, 0, 1] (by decide)
  exact ⟨h.1.trans (by rfl), h.2⟩

/-- Helper: a filter over a list in which no element satisfies the predicate
is empty, so taking its head with a fallback yields the fallback. -/
theorem filter_headD_fallback (p : String → Bool) (l : List String) (d : String)
    (h : ∀ x ∈ l, p x = false) :
    (l.filter p).headD d = d := by
  have hnil : l.filter p = [] := by
    rw [List.filter_eq_nil_iff]
    intro x hx
    simp [h x hx]
  rw [hnil]
  rfl

/-- Helper: filtering a list that splits as `pre ++ c :: post`, where nothing
in `pre` matches and `c` does, puts `c` first; its head with any fallback is
`c`. -/
theorem filter_headD_first (p : String → Bool) (pre : List String) (c : String)
    (post : List String) (d : String)
    (hpre : ∀ x ∈ pre, p x = false) (hc : p c = true) :
    (((pre ++ c :: post).filter p).headD d) = c := by
  have h1 : pre.filter p = [] := by
    rw [List.filter_eq_nil_iff]
    intro x hx
    simp [hpre x hx]
  rw [List.filter_append, h1, List.filter_cons_of_pos hc]
  rfl

/-- C9.  Fallback column: when no column name contains `"prev_unde"`
(respectively `"neonatal_mortality"`), the view substitutes the documented
fallback column `"life_expect"` (respectively `"infant_mortality"`) and the
column choice still yields a value, so the cycle completes; and when a
matching column exists, the first match in column order is used. -/
theorem fallback_columns (cols : List String) :
    ((∀ c ∈ cols, strContains c "prev_unde" = false) →
        y_col_3 cols = "life_expect")
  ∧ ((∀ c ∈ cols, strContains c "neonatal_mortality" = false) →
        y_col_4 cols = "infant_mortality")
  ∧ (∀ pre c post, cols = pre ++ c :: post →
      (∀ d ∈ pre, strContains d "prev_unde" = false) →
      strContains c "prev_unde" = true → y_col_3 cols = c)
  ∧ (∀ pre c post, cols = pre ++ c :: post →
      (∀ d ∈ pre, strContains d "neonatal_mortality" = false) →
      strContains c "neonatal_mortality" = true → y_col_4 cols = c) := by
  refine ⟨fun h => ?_, fun h => ?_, fun pre c post hsplit hpre hc => ?_,
    fun pre c post hsplit hpre hc => ?_⟩
  · exact filter_headD_fallback _ cols _ h
  · exact filter_headD_fallback _ cols _ h
  · rw [y_col_3, undernourish_cols, hsplit]
    exact filter_headD_first _ pre c post _ hpre hc
  · rw [y_col_4, neonatal_cols, hsplit]
    exact filter_headD_first _ pre c post _ hpre hc

/-- Witness for C9: on a table whose columns are `["country_x", "year",
"life_expect"]` neither substring occurs, so both fallbacks are chosen; on a
table with two matching undernourishment columns the first match is chosen. -/
theorem fallback_columns_witness :
    y_col_3 ["country_x", "year", "life_expect"] = "life_expect"
  ∧ y_col_4 ["country_x", "year", "life_expect"] = "infant_mortality"
  ∧ y_col_3 ["year", "prev_unde_a", "prev_unde_b"] = "prev_unde_a" :=
  ⟨(fallback_columns ["country_x", "year", "life_expect"]).1 (by decide),
   (fallback_columns ["country_x", "year", "life_expect"]).2.1 (by decide),
   (fallback_columns ["year", "prev_unde_a", "prev_unde_b"]).2.2.1
     ["year"] "prev_unde_a" ["prev_unde_b"] rfl (by decide) (by decide)⟩

/-- A third concrete record for year 2020. -/
def rowA3 : Row := { country := "A", year := 2020, life_expect := 72 }

/-- Concrete records for year 2021. -/
def rowB1 : Row := { country := "A", year := 2021, life_expect := 80 }

/-- Second concrete record for year 2021. -/
def rowB2 : Row := { country := "A", year := 2021, life_expect := 81 }

/-- Third concrete record for year 2021. -/
def rowB3 : Row := { country := "A", year := 2021, life_expect := 82 }

/-- A two-row base table, both rows visible under countries `["A"]`,
year 2020. -/
def dfAB : List Row := [rowA1, rowA2]

/-- A session state holding an active brush on position 0 and no pending
chart events (the state right after a selection of point 0 was processed
and its payload cleared). -/
def activeState0 : SessionState :=
  { initialState with selected_indices := some [0] }

/-- C2 counterexample.  The claim says an event tagged with a reactive
chart's key never changes the brush state; but from the initial state (no
selection stored), a selection of point 0 on chart `fig2` — a reactive
chart, since `fig1` is the single controller — changes `selected_indices`
from `none` to `some [0]`. -/
theorem cross_talk_counterexample :
    initialState.selected_indices = none
  ∧ (step dfAB { countries := ["A"], year := 2020, state := initialState }
        (Trigger.select ChartKey.fig2 [0])).map
      (fun p => p.1.state.selected_indices) = some (some [0]) := by
  decide

/-- C2 amended.  Selection events from every one of the four charts update
the brush: one rerun applies the four stored events in chart order, each
non-empty one replacing `selected_indices`, so the resulting selection is
the most recently applied non-empty event (fig4 first in priority, then
fig3, fig2, fig1), and only if all four are empty does the prior selection
survive. -/
theorem events_from_any_chart (s : SessionState) :
    process_events s =
      match [s.fig4_event, s.fig3_event, s.fig2_event, s.fig1_event].find?
          (fun e => !e.isEmpty) with
      | some e => some e
      | none => s.selected_indices := by
  cases h4 : s.fig4_event <;> cases h3 : s.fig3_event <;>
    cases h2 : s.fig2_event <;> cases h1 : s.fig1_event <;>
      simp [process_events, update_brush, h1, h2, h3, h4, List.find?]

/-- C5 counterexample.  The claim says the controller chart is rendered from
the full DatasetView; but with an active brush on position 0 over the
two-row view `[rowA1, rowA2]`, chart `fig1` is rendered from the brushed
subset `[rowA1]`, not from the full view. -/
theorem controller_full_view_counterexample :
    (rerun dfAB ["A"] 2020 activeState0).map (fun p => p.2.fig1_data)
      = some [rowA1]
  ∧ year_df dfAB ["A"] 2020 = [rowA1, rowA2]
  ∧ ([rowA1] : List Row) ≠ [rowA1, rowA2] := by
  decide

/-- C5 amended.  Every chart, the controller included, is rendered from the
brushed subset: in any rerun that completes, `fig1`'s data equals the result
of `apply_brush` on the current `year_df` — the same data the three reactive
charts receive — so records outside an active brush are not offered by the
controller. -/
theorem controller_rendered_from_brushed (df : List Row) (cs : List String)
    (y : Int) (s : SessionState) (p : SessionState × Outputs)
    (h : rerun df cs y s = some p) :
    apply_brush s.selected_indices (year_df df cs y) = some p.2.fig1_data
  ∧ p.2.fig1_data = p.2.fig2_data ∧ p.2.fig2_data = p.2.fig3_data
  ∧ p.2.fig3_data = p.2.fig4_data := by
  cases hb : apply_brush s.selected_indices (year_df df cs y) with
  | none => rw [rerun, hb] at h; exact absurd h (by simp)
  | some b =>
      rw [rerun, hb] at h
      cases h
      exact ⟨rfl, rfl, rfl, rfl⟩

/-- The session-state/outputs pair produced by a completing rerun on `dfAB`
with the brush active on position 0: the four charts all receive `[rowA1]`
and the summary is a correlation matrix over its numeric fields. -/
def outA1 : Outputs :=
  { fig1_data := [rowA1], fig2_data := [rowA1], fig3_data := [rowA1],
    fig4_data := [rowA1],
    summary := SummaryOutput.corrMatrix (numeric_df [rowA1]) }

/-- Witness for C5 amended: on the concrete rerun over `dfAB` with brush
`[0]`, the controller's rendered data is the brushed subset `[rowA1]`. -/
theorem controller_rendered_from_brushed_witness :
    apply_brush activeState0.selected_indices (year_df dfAB ["A"] 2020)
      = some (activeState0, outA1).2.fig1_data
  ∧ (activeState0, outA1).2.fig1_data = (activeState0, outA1).2.fig2_data
  ∧ (activeState0, outA1).2.fig2_data = (activeState0, outA1).2.fig3_data
  ∧ (activeState0, outA1).2.fig3_data = (activeState0, outA1).2.fig4_data :=
  controller_rendered_from_brushed dfAB ["A"] 2020 activeState0
    (activeState0, outA1) (by decide)

/-- C6 counterexample.  The claim says that a BrushedView with exactly one
record makes the system emit the "need more data" signal; but with the brush
active on position 0, the brushed view is the single row `[rowA1]` and the
summary output is still a correlation matrix, not the signal. -/
theorem correlation_gating_counterexample :
    (rerun dfAB ["A"] 2020 activeState0).map (fun p => p.2.fig2_data.length)
      = some 1
  ∧ (rerun dfAB ["A"] 2020 activeState0).map (fun p => p.2.summary)
      = some (SummaryOutput.corrMatrix (numeric_df [rowA1]))
  ∧ SummaryOutput.corrMatrix (numeric_df [rowA1]) ≠ SummaryOutput.needMoreData := by
  decide

/-- C6 amended.  The correlation matrix is computed unconditionally from the
brushed view's numeric fields, whatever its size: every completing rerun's
summary output is a matrix over exactly the brushed rows, and the "need more
data" signal is never emitted. -/
theorem corr_always_matrix (df : List Row) (cs : List String) (y : Int)
    (s : SessionState) (p : SessionState × Outputs)
    (h : rerun df cs y s = some p) :
    p.2.summary ≠ SummaryOutput.needMoreData
  ∧ ∃ b, apply_brush s.selected_indices (year_df df cs y) = some b
      ∧ p.2.summary = SummaryOutput.corrMatrix (numeric_df b) := by
  cases hb : apply_brush s.selected_indices (year_df df cs y) with
  | none => rw [rerun, hb] at h; exact absurd h (by simp)
  | some b =>
      rw [rerun, hb] at h
      cases h
      exact ⟨by simp, b, rfl, rfl⟩

/-- Witness for C6 amended: on the concrete one-row brushed rerun, the
summary is a matrix over `[rowA1]`'s numeric fields and not the signal. -/
theorem corr_always_matrix_witness :
    (activeState0, outA1).2.summary ≠ SummaryOutput.needMoreData
  ∧ ∃ b, apply_brush activeState0.selected_indices (year_df dfAB ["A"] 2020)
      = some b
      ∧ (activeState0, outA1).2.summary = SummaryOutput.corrMatrix (numeric_df b) :=
  corr_always_matrix dfAB ["A"] 2020 activeState0 (activeState0, outA1)
    (by decide)

/-- A six-row base table: four rows at year 2020 and two at year 2021, all
for country A. -/
def dfC1 : List Row :=
  [rowA1, rowA2, rowA3, { country := "A", year := 2020, life_expect := 73 },
   rowB1, rowB2]

/-- A fresh session on `dfC1`: countries `["A"]`, year 2020, nothing
selected. -/
def sessC1 : Session :=
  { countries := ["A"], year := 2020, state := initialState }

/-- The session after selecting point 3 on `fig1` while year 2020 was
shown: brush stored as positional index `[3]`, the `fig1` payload
persisting in session state. -/
def sessC1b : Session :=
  { countries := ["A"], year := 2020,
    state := { selected_indices := some [3], fig1_event := [3],
               fig2_event := [], fig3_event := [], fig4_event := [] } }

/-- C1.  The pruning invariant fails in the code: selecting point 3 on the
controller while the year-2020 view has four rows stores `[3]`; changing the
year to 2021 shrinks the view to two rows, and instead of intersecting the
selection with the new view (collapsing to EMPTY when disjoint), the rerun
feeds the stored index 3 to `.iloc` on the two-row view and crashes with
`IndexError` — the brush refers to a row missing from the current view. -/
theorem pruning_invariant_crash :
    (step dfC1 sessC1 (Trigger.select ChartKey.fig1 [3])).map (fun p => p.1)
      = some sessC1b
  ∧ (year_df dfC1 ["A"] 2021).length = 2
  ∧ step dfC1 sessC1b (Trigger.setYear 2021) = none := by
  decide

/-- A two-row base table: one row at year 2020, one at year 2021. -/
def dfC3 : List Row := [rowA1, rowB1]

/-- A fresh session on `dfC3`: countries `["A"]`, year 2020, nothing
selected. -/
def sessC3 : Session :=
  { countries := ["A"], year := 2020, state := initialState }

/-- The session state after selecting point 0 on `fig1` over the year-2020
view of `dfC3`. -/
def stC3 : SessionState :=
  { selected_indices := some [0], fig1_event := [0], fig2_event := [],
    fig3_event := [], fig4_event := [] }

/-- C3.  Stable identity fails in the code: the identifier the brush stores
is the transient `point_index` (a position inside whatever slice was
rendered), not a load-time identity.  The reachable stored selection `[0]`
brushes the record `rowA1` while the year filter is 2020, but the *same*
stored selection brushes the different record `rowB1` after the year changes
to 2021 — the identifier is recomputed from position and does not denote the
same record across recompute cycles. -/
theorem stable_identity_violation :
    (step dfC3 sessC3 (Trigger.select ChartKey.fig1 [0])).map
      (fun p => p.1.state) = some stC3
  ∧ (rerun dfC3 ["A"] 2020 stC3).map (fun p => p.2.fig2_data) = some [rowA1]
  ∧ (rerun dfC3 ["A"] 2021 stC3).map (fun p => p.2.fig2_data) = some [rowB1]
  ∧ rowA1 ≠ rowB1 := by
  decide

/-- A six-row base table: three rows at year 2020 and three at year 2021. -/
def dfC4 : List Row := [rowA1, rowA2, rowA3, rowB1, rowB2, rowB3]

/-- A fresh session on `dfC4`: countries `["A"]`, year 2020, nothing
selected. -/
def sessC4 : Session :=
  { countries := ["A"], year := 2020, state := initialState }

/-- The session after selecting point 1 on `fig1` while the year-2020 view
`[rowA1, rowA2, rowA3]` was shown (the user selected `rowA2`); the plotly
payload for `fig1` persists in session state. -/
def sessC4b : Session :=
  { countries := ["A"], year := 2020,
    state := { selected_indices := some [1], fig1_event := [1],
               fig2_event := [], fig3_event := [], fig4_event := [] } }

/-- C4.  Stale-event handling fails in the code: there is no epoch, so the
positional event `[1]` issued against the year-2020 slice is not discarded
when the year changes to 2021 — the rerun keeps the stored index, re-applies
the persisted `fig1` payload, and resolves position 1 against the year-2021
slice, brushing `rowB2`, a record that was not even present in the slice the
event was issued from. -/
theorem stale_event_resolved :
    (step dfC4 sessC4 (Trigger.select ChartKey.fig1 [1])).map (fun p => p.1)
      = some sessC4b
  ∧ (step dfC4 sessC4b (Trigger.setYear 2021)).map
      (fun p => (p.1.state.selected_indices, p.2.fig2_data))
      = some (some [1], [rowB2])
  ∧ (year_df dfC4 ["A"] 2020).contains rowB2 = false := by
  decide

end VDS
